import Mathlib

/-!
# alsa-shim: a shallow embedding of `libasound_module_pcm_shim.c`

The plugin is one C file.  Its functions are embedded as pure Lean functions
that return, next to the C return value, the ordered list of library calls
made on the calling thread and the bodies of the threads that were started.
Values that come from outside the file (what `system`, `pthread_create`,
`pthread_detach`, `calloc`, `strdup`, `snd_pcm_extplug_create` return, and the
indeterminate initial content of uninitialised locals) are fields of `HookEnv`
and `PluginEnv`.  A function that does not return, because a call it made
faulted, has the return value `none`.
-/

namespace AlsaShim

/-! ## Constants and data types -/

/-- The errno value EINVAL. -/
def EINVAL : Int := 22

/-- The errno value ENOMEM. -/
def ENOMEM : Int := 12

/-- Width of `unsigned int`. -/
def UINT_WIDTH : Nat := 32

/-- Width of `unsigned long` (`snd_pcm_uframes_t`, `size_t`) on LP64. -/
def ULONG_WIDTH : Nat := 64

/-- The struct `snd_pcm_shim_hook_t`: `path = none` is the NULL pointer. -/
structure snd_pcm_shim_hook_t where
  path : Option String
  blocking : Bool
deriving DecidableEq

/-- The hook part of the struct `snd_pcm_shim_t` (the `ext` member is the
host framework handle and carries no data of this file). -/
structure snd_pcm_shim_t where
  open_hook : snd_pcm_shim_hook_t
  close_hook : snd_pcm_shim_hook_t
deriving DecidableEq

/-- The C functions of the file, as the `__func__` of a TRACE line. -/
inductive Func where
  | call_hook
  | close_callback
  | init_callback
  | snd_pcm_shim_open
deriving DecidableEq

/-- The format strings handed to TRACE, with their arguments. -/
inductive TraceMsg where
  | path_empty
  | running_blocking (path : String)
  | running_non_blocking (path : String)
  | close_called
  | init_called
  | create_plugin
  | error_creating (err : Int)
deriving DecidableEq

/-- The format strings handed to SNDERR, with their arguments. -/
inductive ErrMsg where
  | could_not_parse_open_hook_path
  | unknown_field_open_hook (id : String)
  | could_not_parse_close_hook_path
  | unknown_field_close_hook (id : String)
  | unknown_field (id : String)
  | slave_not_defined
  | could_not_allocate
deriving DecidableEq

/-- One call that leaves the file: a libc, pthread or alsa-lib call, or a
diagnostic line (DEBUG is defined, so TRACE prints). -/
inductive Call where
  | TRACE (func : Func) (msg : TraceMsg)
  | SNDERR (msg : ErrMsg)
  | system (cmd : String)
  | pthread_create (arg : String)
  | pthread_detach
  | pthread_exit
  | calloc
  | strdup (s : String)
  | free
  | snd_pcm_extplug_create
  | snd_pcm_extplug_params_reset
  | snd_pcm_extplug_set_param_link
deriving DecidableEq

/-- Is the call a run of the shell executor. -/
def Call.isSystem : Call → Bool
  | .system _ => true
  | _ => false

/-- Is the call a thread creation. -/
def Call.isCreate : Call → Bool
  | .pthread_create _ => true
  | _ => false

/-- Is the call a diagnostic line printed from inside `call_hook`. -/
def Call.isHookTrace : Call → Bool
  | .TRACE .call_hook _ => true
  | _ => false

/-- What a C function of the file did: the value it returned (`none` when it
did not return because a call it made faulted and the process was killed), the
calls made on the calling thread in order, and the body of every thread it
started. -/
structure Run where
  ret : Option Int
  calls : List Call
  threads : List (List Call)
deriving DecidableEq

/-! ## The hook runner -/

/-- Everything `call_hook` obtains from outside the file. -/
structure HookEnv where
  /-- the value `system(cmd)` returns -/
  system : String → Int
  /-- the value `pthread_create` returns; 0 is success -/
  pthread_create : Int
  /-- the outcome of `pthread_detach(thread)`.  The only call is made after a
  failed `pthread_create`, which leaves the local `thread` (declared without
  initialiser) unwritten: the call either returns a value, or faults on the
  garbage handle (`none`) -/
  pthread_detach : Option Int

/-- The thread start routine `run_system`: run the command, then exit the
thread. -/
def run_system (arg : String) : List Call :=
  [.system arg, .pthread_exit]

/-- The function `call_hook`.  The C expression
`pthread_create(..) && pthread_detach(thread)` evaluates its right operand
only when the left one is nonzero, and yields 0 or 1.  The right operand is
therefore evaluated only after a failed `pthread_create`, on the unwritten
local `thread`; when that call faults, `call_hook` does not return. -/
def call_hook (env : HookEnv) (hook : snd_pcm_shim_hook_t) : Run :=
  match hook.path with
  | none => { ret := some 0, calls := [.TRACE .call_hook .path_empty], threads := [] }
  | some path =>
    if path.length < 1 then
      { ret := some 0, calls := [.TRACE .call_hook .path_empty], threads := [] }
    else if hook.blocking then
      { ret := some (env.system path),
        calls := [.TRACE .call_hook (.running_blocking path), .system path],
        threads := [] }
    else if env.pthread_create ≠ 0 then
      { ret := match env.pthread_detach with
               | none => none
               | some d => some (if d ≠ 0 then 1 else 0),
        calls := [.TRACE .call_hook (.running_non_blocking path),
                  .pthread_create path, .pthread_detach],
        threads := [] }
    else
      { ret := some 0,
        calls := [.TRACE .call_hook (.running_non_blocking path),
                  .pthread_create path],
        threads := [run_system path] }

/-- The test WIFEXITED of the wait status that `system` returns. -/
def WIFEXITED (status : Int) : Bool := status % 128 == 0

/-- The accessor WEXITSTATUS of the wait status that `system` returns: the exit
code of the command sits in bits 8 to 15. -/
def WEXITSTATUS (status : Int) : Int := (status / 256) % 256

/-- The function `close_callback`: it returns 0 once `call_hook` has returned,
whatever value that was. -/
def close_callback (env : HookEnv) (shim : snd_pcm_shim_t) : Run :=
  let h := call_hook env shim.close_hook
  { ret := match h.ret with
           | none => none
           | some _ => some 0,
    calls := .TRACE .close_callback .close_called :: h.calls, threads := h.threads }

/-- The function `init_callback`: it returns 0 once `call_hook` has returned,
whatever value that was. -/
def init_callback (env : HookEnv) (shim : snd_pcm_shim_t) : Run :=
  let h := call_hook env shim.open_hook
  { ret := match h.ret with
           | none => none
           | some _ => some 0,
    calls := .TRACE .init_callback .init_called :: h.calls, threads := h.threads }

/-! ## The transfer path -/

/-- The struct `snd_pcm_channel_area_t`: base address, offset of the first
sample in bits, distance between samples in bits (both `unsigned int`). -/
structure snd_pcm_channel_area_t where
  addr : Nat
  first : Nat
  step : Nat
deriving DecidableEq

/-- Byte-addressed memory. -/
abbrev Mem := Nat → Fin 256

/-- The function `area_addr`.  `area->step * offset` and the sum are computed
in `unsigned long` (the type of `offset`), and the result is stored in the
`unsigned int` local `bitofs`. -/
def area_addr (area : snd_pcm_channel_area_t) (offset : Nat) : Nat :=
  let bitofs : Nat :=
    ((area.first + (area.step * offset) % 2 ^ ULONG_WIDTH) % 2 ^ ULONG_WIDTH) % 2 ^ UINT_WIDTH
  area.addr + bitofs / 8

/-- The libc function `memcpy` on regions that do not overlap: the `n` bytes
at `dst` become the `n` bytes at `src`. -/
def memcpy (m : Mem) (dst src n : Nat) : Mem :=
  fun a => if dst ≤ a ∧ a < dst + n then m (src + (a - dst)) else m a

/-- What `transfer_callback` did: its return value and the memory it left. -/
structure TransferRun where
  ret : Int
  mem : Mem

/-- The function `transfer_callback`.  `dst_areas` and `src_areas` point at
the first channel area, the only one the function reads.  `size * 2` is
computed in `unsigned long`; the return type `snd_pcm_sframes_t` is the signed
`long`. -/
def transfer_callback (m : Mem)
    (dst_areas : snd_pcm_channel_area_t) (dst_offset : Nat)
    (src_areas : snd_pcm_channel_area_t) (src_offset : Nat)
    (size : Nat) : TransferRun :=
  let src := area_addr src_areas src_offset
  let dst := area_addr dst_areas dst_offset
  { mem := memcpy m dst src ((size * 2) % 2 ^ ULONG_WIDTH),
    ret := if size < 2 ^ (ULONG_WIDTH - 1) then (size : Int) else (size : Int) - 2 ^ ULONG_WIDTH }

/-- The 2-byte sample stored at a byte address. -/
def sample16 (m : Mem) (a : Nat) : Fin 256 × Fin 256 := (m a, m (a + 1))

/-! ## The plugin factory -/

/-- A child node of a hook block, as seen through the alsa-lib calls the
factory makes on it. -/
structure snd_config_leaf where
  /-- result of `snd_config_get_id`: `none` when it returns a negative value -/
  id : Option String
  /-- the value `snd_config_get_bool` returns (0, 1 or a negative error) -/
  get_bool : Int
  /-- result of `snd_config_get_string`: `none` when it returns a negative value -/
  get_string : Option String
deriving DecidableEq

/-- A node of the configuration block handed to the factory: its id and the
nodes `snd_config_for_each` visits in it. -/
structure snd_config_t where
  /-- result of `snd_config_get_id`: `none` when it returns a negative value -/
  id : Option String
  children : List snd_config_leaf
deriving DecidableEq

/-- Everything the factory obtains from outside the file. -/
structure PluginEnv where
  hook : HookEnv
  /-- the indeterminate initial value of the local `open_hook_blocking` -/
  open_hook_blocking : Bool
  /-- the indeterminate initial value of the local `close_hook_blocking` -/
  close_hook_blocking : Bool
  /-- whether `calloc` returns a non-NULL pointer -/
  calloc_ok : Bool
  /-- whether `strdup` of the open hook path returns a non-NULL pointer -/
  strdup_open_ok : Bool
  /-- whether `strdup` of the close hook path returns a non-NULL pointer -/
  strdup_close_ok : Bool
  /-- the value `snd_pcm_extplug_create` returns for a slave node -/
  snd_pcm_extplug_create : snd_config_t → Int

/-- The locals of the factory that the configuration loop assigns. -/
structure Locals where
  slave : Option snd_config_t
  open_hook_path : Option String
  close_hook_path : Option String
  open_hook_blocking : Bool
  close_hook_blocking : Bool
deriving DecidableEq

/-- The inner loop over the children of an `open_hook` node.  An error is a
`return -EINVAL` after the SNDERR line it carries. -/
def open_hook_loop : List snd_config_leaf → Locals → Except ErrMsg Locals
  | [], l => .ok l
  | n :: rest, l =>
    match n.id with
    | none => open_hook_loop rest l
    | some id =>
      if id = "blocking" then
        open_hook_loop rest { l with open_hook_blocking := decide (n.get_bool ≠ 0) }
      else if id = "path" then
        match n.get_string with
        | none => .error .could_not_parse_open_hook_path
        | some s => open_hook_loop rest { l with open_hook_path := some s }
      else .error (.unknown_field_open_hook id)

/-- The inner loop over the children of a `close_hook` node. -/
def close_hook_loop : List snd_config_leaf → Locals → Except ErrMsg Locals
  | [], l => .ok l
  | n :: rest, l =>
    match n.id with
    | none => close_hook_loop rest l
    | some id =>
      if id = "blocking" then
        close_hook_loop rest { l with close_hook_blocking := decide (n.get_bool ≠ 0) }
      else if id = "path" then
        match n.get_string with
        | none => .error .could_not_parse_close_hook_path
        | some s => close_hook_loop rest { l with close_hook_path := some s }
      else .error (.unknown_field_close_hook id)

/-- The outer loop of the factory over the nodes of `conf`. -/
def conf_loop : List snd_config_t → Locals → Except ErrMsg Locals
  | [], l => .ok l
  | n :: rest, l =>
    match n.id with
    | none => conf_loop rest l
    | some id =>
      if id = "comment" ∨ id = "type" ∨ id = "hint" then conf_loop rest l
      else if id = "slave" then conf_loop rest { l with slave := some n }
      else if id = "open_hook" then
        match open_hook_loop n.children l with
        | .error e => .error e
        | .ok l1 => conf_loop rest l1
      else if id = "close_hook" then
        match close_hook_loop n.children l with
        | .error e => .error e
        | .ok l1 => conf_loop rest l1
      else .error (.unknown_field id)

/-- What the factory did: the value it returned (`none` when it did not return
because `call_hook` did not), calls, started threads, the hook fields of the
shim as assigned after `calloc` (`none` when the factory returned before), and
whether `*pcmp` was assigned. -/
structure PluginRun where
  ret : Option Int
  calls : List Call
  threads : List (List Call)
  shim : Option snd_pcm_shim_t
  pcmp : Bool
deriving DecidableEq

/-- The locals of the factory at their declaration: `slave` and the two paths
are NULL, the two blocking flags have no initialiser. -/
def init_locals (env : PluginEnv) : Locals :=
  { slave := none, open_hook_path := none, close_hook_path := none,
    open_hook_blocking := env.open_hook_blocking,
    close_hook_blocking := env.close_hook_blocking }

/-- The expression `p != NULL ? strdup(p) : ""` with the calls it makes. -/
def dup_path (ok : Bool) : Option String → Option String × List Call
  | none => (some "", [])
  | some p => (if ok then some p else none, [.strdup p])

/-- The factory `SND_PCM_PLUGIN_DEFINE_FUNC(shim)`, that is `_snd_pcm_shim_open`. -/
def snd_pcm_shim_open (env : PluginEnv) (conf : List snd_config_t) : PluginRun :=
  match conf_loop conf (init_locals env) with
  | .error e =>
    { ret := some (-EINVAL), calls := [.SNDERR e], threads := [], shim := none, pcmp := false }
  | .ok l =>
    match l.slave with
    | none =>
      { ret := some (-EINVAL), calls := [.SNDERR .slave_not_defined], threads := [],
        shim := none, pcmp := false }
    | some slave =>
      if !env.calloc_ok then
        { ret := some (-ENOMEM), calls := [.calloc, .SNDERR .could_not_allocate], threads := [],
          shim := none, pcmp := false }
      else
        let o := dup_path env.strdup_open_ok l.open_hook_path
        let c := dup_path env.strdup_close_ok l.close_hook_path
        let shim : snd_pcm_shim_t :=
          { open_hook := { path := o.1, blocking := l.open_hook_blocking },
            close_hook := { path := c.1, blocking := l.close_hook_blocking } }
        let h := call_hook env.hook shim.open_hook
        match h.ret with
        | none =>
          { ret := none, calls := [.calloc] ++ o.2 ++ c.2 ++ h.calls,
            threads := h.threads, shim := some shim, pcmp := false }
        | some _ =>
          let err := env.snd_pcm_extplug_create slave
          let pre : List Call :=
            [.calloc] ++ o.2 ++ c.2 ++ h.calls
              ++ [.TRACE .snd_pcm_shim_open .create_plugin, .snd_pcm_extplug_create]
          if err < 0 then
            { ret := some err,
              calls := pre ++ [.TRACE .snd_pcm_shim_open (.error_creating err), .free],
              threads := h.threads, shim := some shim, pcmp := false }
          else
            { ret := some err,
              calls := pre ++ [.snd_pcm_extplug_params_reset,
                               .snd_pcm_extplug_set_param_link,
                               .snd_pcm_extplug_set_param_link],
              threads := h.threads, shim := some shim, pcmp := true }

/-! ## Predicates used in the statements -/

/-- A node the factory rejects: a top-level id outside the six the outer loop
accepts, or a hook block with a child id other than `path` and `blocking`. -/
def rejected_node (n : snd_config_t) : Prop :=
  ∃ id, n.id = some id ∧
    ((id ≠ "slave" ∧ id ≠ "open_hook" ∧ id ≠ "close_hook"
        ∧ id ≠ "comment" ∧ id ≠ "type" ∧ id ≠ "hint")
      ∨ ((id = "open_hook" ∨ id = "close_hook")
        ∧ ∃ c ∈ n.children, ∃ cid, c.id = some cid ∧ cid ≠ "path" ∧ cid ≠ "blocking"))

/-! ## Concrete inputs -/

/-- An environment in which the command run by `system` exits with code 7:
`system` returns the wait status, which holds the exit code in bits 8 to 15. -/
def envExit7 : HookEnv :=
  { system := fun _ => 7 * 256, pthread_create := 0, pthread_detach := some 0 }

/-- An environment in which every command exits with code 0 and thread
creation succeeds. -/
def envOk : HookEnv :=
  { system := fun _ => 0, pthread_create := 0, pthread_detach := some 0 }

/-- An environment in which `pthread_create` fails with EAGAIN (11) and the
following `pthread_detach` returns 0. -/
def envCreateFails : HookEnv :=
  { system := fun _ => 0, pthread_create := 11, pthread_detach := some 0 }

/-- An environment in which `pthread_create` fails with EAGAIN (11) and the
following `pthread_detach` on the unwritten local `thread` faults. -/
def envDetachFaults : HookEnv :=
  { system := fun _ => 0, pthread_create := 11, pthread_detach := none }

/-- A shim whose open and close hooks are the non-blocking hook `/bin/hook`. -/
def shimNonBlocking : snd_pcm_shim_t :=
  { open_hook := { path := some "/bin/hook", blocking := false },
    close_hook := { path := some "/bin/hook", blocking := false } }

/-- The configuration `slave ...; open_hook.path "/bin/hook"; open_hook.blocking 0`. -/
def confNonBlocking : List snd_config_t :=
  [{ id := some "slave", children := [] },
   { id := some "open_hook",
     children := [{ id := some "path", get_bool := 0, get_string := some "/bin/hook" },
                  { id := some "blocking", get_bool := 0, get_string := none }] }]

/-- A factory environment in which allocation, string duplication and the
slave binding succeed, and the uninitialised locals `open_hook_blocking` and
`close_hook_blocking` hold a nonzero byte. -/
def envPlugin : PluginEnv :=
  { hook := envOk, open_hook_blocking := true, close_hook_blocking := true,
    calloc_ok := true, strdup_open_ok := true, strdup_close_ok := true,
    snd_pcm_extplug_create := fun _ => 0 }

/-- The configuration `type shim; slave ...`. -/
def confTypeSlave : List snd_config_t :=
  [{ id := some "type", children := [] }, { id := some "slave", children := [] }]

/-- The configuration `slave ...; open_hook.path "/bin/hook"`: no `blocking`
entry in the open hook block, no close hook block. -/
def confNoBlocking : List snd_config_t :=
  [{ id := some "slave", children := [] },
   { id := some "open_hook",
     children := [{ id := some "path", get_bool := 0, get_string := some "/bin/hook" }] }]

/-- The configuration `type shim; open_hook.path "/bin/hook"`: no `slave`. -/
def confNoSlave : List snd_config_t :=
  [{ id := some "type", children := [] },
   { id := some "open_hook",
     children := [{ id := some "path", get_bool := 0, get_string := some "/bin/hook" }] }]

/-- The configuration `slave ...; open_hook.foo 1`. -/
def confOpenHookFoo : List snd_config_t :=
  [{ id := some "slave", children := [] },
   { id := some "open_hook",
     children := [{ id := some "foo", get_bool := 1, get_string := none }] }]

/-- Memory in which the byte at address `a` holds `a mod 256`. -/
def memIota : Mem := fun a => Fin.ofNat a

/-- A source region at address 0 with 32 bits between frames. -/
def srcStride32 : snd_pcm_channel_area_t := { addr := 0, first := 0, step := 32 }

/-- A destination region at address 100 with 32 bits between frames. -/
def dstStride32 : snd_pcm_channel_area_t := { addr := 100, first := 0, step := 32 }

/-- A source region at address 0 with 16 bits between frames, first sample at
bit 8. -/
def srcStride16 : snd_pcm_channel_area_t := { addr := 0, first := 8, step := 16 }

/-- A destination region at address 100 with 16 bits between frames. -/
def dstStride16 : snd_pcm_channel_area_t := { addr := 100, first := 0, step := 16 }

/-! ## Helper lemmas -/

theorem length_lt_one_iff (path : String) : path.length < 1 ↔ path = "" := by
  constructor
  · intro h
    have h0 : path.data.length = 0 := by
      have : path.length = path.data.length := rfl
      omega
    have h1 : path.data = [] := List.length_eq_zero.mp h0
    exact String.ext h1
  · intro h
    subst h
    decide

theorem bitofs_eq (first step offset : Nat) :
    ((first + (step * offset) % 2 ^ ULONG_WIDTH) % 2 ^ ULONG_WIDTH) % 2 ^ UINT_WIDTH
      = (first + step * offset) % 2 ^ UINT_WIDTH := by
  have hdvd : (2 : Nat) ^ UINT_WIDTH ∣ 2 ^ ULONG_WIDTH :=
    pow_dvd_pow 2 (by decide : UINT_WIDTH ≤ ULONG_WIDTH)
  rw [Nat.add_mod_mod, Nat.mod_mod_of_dvd _ hdvd]

theorem area_addr_eq_mod (area : snd_pcm_channel_area_t) (offset : Nat) :
    area_addr area offset
      = area.addr + ((area.first + area.step * offset) % 2 ^ 32) / 8 := by
  simp only [area_addr]
  rw [bitofs_eq]
  rfl

theorem area_addr_of_lt (area : snd_pcm_channel_area_t) (offset : Nat)
    (h : area.first + area.step * offset < 2 ^ 32) :
    area_addr area offset = area.addr + (area.first + area.step * offset) / 8 := by
  rw [area_addr_eq_mod, Nat.mod_eq_of_lt h]

theorem area_addr_frame (area : snd_pcm_channel_area_t) (offset i : Nat)
    (hstep : area.step = 16)
    (h0 : area.first + area.step * offset < 2 ^ 32)
    (hi : area.first + area.step * (offset + i) < 2 ^ 32) :
    area_addr area (offset + i) = area_addr area offset + 2 * i := by
  rw [area_addr_of_lt area offset h0, area_addr_of_lt area (offset + i) hi, hstep]
  omega

theorem open_hook_loop_slave (cs : List snd_config_leaf) :
    ∀ (l l1 : Locals), open_hook_loop cs l = .ok l1 → l1.slave = l.slave := by
  induction cs with
  | nil =>
    intro l l1 h
    simp only [open_hook_loop, Except.ok.injEq] at h
    rw [← h]
  | cons n rest ih =>
    intro l l1 h
    unfold open_hook_loop at h
    split at h
    · exact ih _ _ h
    · split_ifs at h
      · have h2 := ih _ _ h
        exact h2
      · split at h
        · cases h
        · have h2 := ih _ _ h
          exact h2

theorem close_hook_loop_slave (cs : List snd_config_leaf) :
    ∀ (l l1 : Locals), close_hook_loop cs l = .ok l1 → l1.slave = l.slave := by
  induction cs with
  | nil =>
    intro l l1 h
    simp only [close_hook_loop, Except.ok.injEq] at h
    rw [← h]
  | cons n rest ih =>
    intro l l1 h
    unfold close_hook_loop at h
    split at h
    · exact ih _ _ h
    · split_ifs at h
      · have h2 := ih _ _ h
        exact h2
      · split at h
        · cases h
        · have h2 := ih _ _ h
          exact h2

theorem conf_loop_slave (conf : List snd_config_t)
    (hno : ∀ n ∈ conf, n.id ≠ some "slave") :
    ∀ (l l1 : Locals), conf_loop conf l = .ok l1 → l1.slave = l.slave := by
  induction conf with
  | nil =>
    intro l l1 h
    simp only [conf_loop, Except.ok.injEq] at h
    rw [← h]
  | cons n rest ih =>
    have hrest : ∀ k ∈ rest, k.id ≠ some "slave" :=
      fun k hk => hno k (List.mem_cons_of_mem _ hk)
    have hn : n.id ≠ some "slave" := hno n (List.mem_cons_self _ _)
    intro l l1 h
    unfold conf_loop at h
    split at h
    · exact ih hrest _ _ h
    · rename_i id hid
      split_ifs at h with h1 h2 h3 h4
      · exact ih hrest _ _ h
      · exact absurd (by rw [hid, h2]) hn
      · split at h
        · cases h
        · rename_i l2 hl2
          rw [ih hrest _ _ h]
          exact open_hook_loop_slave _ _ _ hl2
      · split at h
        · cases h
        · rename_i l2 hl2
          rw [ih hrest _ _ h]
          exact close_hook_loop_slave _ _ _ hl2


theorem transfer_mem_eq (m : Mem) (dst src : snd_pcm_channel_area_t)
    (dst_offset src_offset size : Nat) (hsz : 2 * size < 2 ^ 64) (a : Nat) :
    (transfer_callback m dst dst_offset src src_offset size).mem a
      = if area_addr dst dst_offset ≤ a ∧ a < area_addr dst dst_offset + 2 * size
        then m (area_addr src src_offset + (a - area_addr dst dst_offset)) else m a := by
  have h2 : (size * 2) % 2 ^ ULONG_WIDTH = 2 * size := by
    rw [Nat.mul_comm size 2]
    exact Nat.mod_eq_of_lt hsz
  simp only [transfer_callback, memcpy, h2]

theorem open_hook_loop_unknown (cs : List snd_config_leaf)
    (h : ∃ c ∈ cs, ∃ id, c.id = some id ∧ id ≠ "path" ∧ id ≠ "blocking") :
    ∀ l : Locals, ∃ e, open_hook_loop cs l = .error e := by
  induction cs with
  | nil =>
    obtain ⟨c, hc, _⟩ := h
    cases hc
  | cons n rest ih =>
    intro l
    obtain ⟨c, hc, id, hid, hp, hb⟩ := h
    unfold open_hook_loop
    rcases List.mem_cons.mp hc with heq | hc1
    · subst heq
      simp [hid, hp, hb]
    · have ih1 := ih ⟨c, hc1, id, hid, hp, hb⟩
      split
      · exact ih1 _
      · split_ifs
        · exact ih1 _
        · split
          · exact ⟨_, rfl⟩
          · exact ih1 _
        · exact ⟨_, rfl⟩

theorem close_hook_loop_unknown (cs : List snd_config_leaf)
    (h : ∃ c ∈ cs, ∃ id, c.id = some id ∧ id ≠ "path" ∧ id ≠ "blocking") :
    ∀ l : Locals, ∃ e, close_hook_loop cs l = .error e := by
  induction cs with
  | nil =>
    obtain ⟨c, hc, _⟩ := h
    cases hc
  | cons n rest ih =>
    intro l
    obtain ⟨c, hc, id, hid, hp, hb⟩ := h
    unfold close_hook_loop
    rcases List.mem_cons.mp hc with heq | hc1
    · subst heq
      simp [hid, hp, hb]
    · have ih1 := ih ⟨c, hc1, id, hid, hp, hb⟩
      split
      · exact ih1 _
      · split_ifs
        · exact ih1 _
        · split
          · exact ⟨_, rfl⟩
          · exact ih1 _
        · exact ⟨_, rfl⟩

theorem conf_loop_unknown (conf : List snd_config_t)
    (h : ∃ n ∈ conf, rejected_node n) :
    ∀ l : Locals, ∃ e, conf_loop conf l = .error e := by
  induction conf with
  | nil =>
    obtain ⟨c, hc, _⟩ := h
    cases hc
  | cons n rest ih =>
    intro l
    obtain ⟨c, hc, id, hid, hbad⟩ := h
    unfold conf_loop
    rcases List.mem_cons.mp hc with heq | hc1
    · subst heq
      rcases hbad with ⟨h1, h2, h3, h4, h5, h6⟩ | ⟨hk, hch⟩
      · simp [hid, h1, h2, h3, h4, h5, h6]
      · rcases hk with hk | hk
        · subst hk
          obtain ⟨e, he⟩ := open_hook_loop_unknown c.children hch l
          simp [hid, he]
        · subst hk
          obtain ⟨e, he⟩ := close_hook_loop_unknown c.children hch l
          simp [hid, he]
    · have ih1 := ih ⟨c, hc1, id, hid, hbad⟩
      split
      · exact ih1 _
      · split_ifs
        · exact ih1 _
        · exact ih1 _
        · split
          · exact ⟨_, rfl⟩
          · exact ih1 _
        · split
          · exact ⟨_, rfl⟩
          · exact ih1 _
        · exact ⟨_, rfl⟩


theorem snd_pcm_shim_open_of_error (env : PluginEnv) (conf : List snd_config_t)
    (e : ErrMsg) (h : conf_loop conf (init_locals env) = .error e) :
    snd_pcm_shim_open env conf
      = { ret := some (-EINVAL), calls := [.SNDERR e], threads := [], shim := none,
          pcmp := false } := by
  unfold snd_pcm_shim_open
  rw [h]

theorem snd_pcm_shim_open_of_no_slave (env : PluginEnv) (conf : List snd_config_t)
    (l : Locals) (h : conf_loop conf (init_locals env) = .ok l) (hs : l.slave = none) :
    snd_pcm_shim_open env conf
      = { ret := some (-EINVAL), calls := [.SNDERR .slave_not_defined], threads := [],
          shim := none, pcmp := false } := by
  unfold snd_pcm_shim_open
  rw [h]
  simp only [hs]

/-! ## Theorems: the hook runner -/

/-- C1: a hook whose path is NULL or the empty string makes `call_hook` return
0 with no `system` call, no `pthread_create` call and no started thread,
whatever the blocking flag is. -/
theorem call_hook_skips_absent_path (env : HookEnv) (hook : snd_pcm_shim_hook_t)
    (h : hook.path = none ∨ hook.path = some "") :
    (call_hook env hook).ret = some 0
      ∧ (call_hook env hook).calls.countP Call.isSystem = 0
      ∧ (call_hook env hook).calls.countP Call.isCreate = 0
      ∧ (call_hook env hook).threads = [] := by
  rcases h with h | h
  · simp [call_hook, h, Call.isSystem, Call.isCreate]
  · simp [call_hook, h, Call.isSystem, Call.isCreate]

/-- C1 at the hooks (NULL, blocking) and (empty string, non-blocking). -/
theorem call_hook_skips_absent_path_witness :
    ((call_hook envExit7 { path := none, blocking := true }).ret = some 0
      ∧ (call_hook envExit7 { path := none, blocking := true }).calls.countP Call.isSystem = 0
      ∧ (call_hook envExit7 { path := none, blocking := true }).calls.countP Call.isCreate = 0
      ∧ (call_hook envExit7 { path := none, blocking := true }).threads = [])
    ∧ ((call_hook envExit7 { path := some "", blocking := false }).ret = some 0
      ∧ (call_hook envExit7 { path := some "", blocking := false }).calls.countP Call.isSystem = 0
      ∧ (call_hook envExit7 { path := some "", blocking := false }).calls.countP Call.isCreate = 0
      ∧ (call_hook envExit7 { path := some "", blocking := false }).threads = []) :=
  ⟨call_hook_skips_absent_path envExit7 { path := none, blocking := true } (Or.inl rfl),
   call_hook_skips_absent_path envExit7 { path := some "", blocking := false } (Or.inr rfl)⟩

/-- C2 as stated fails: when the command of a blocking hook exits with code 7,
`system` returns the wait status 1792 (it is a normal exit, WIFEXITED, whose
WEXITSTATUS is 7) and `call_hook` returns 1792, not 7. -/
theorem call_hook_blocking_exit7_counterexample :
    WIFEXITED (envExit7.system "/bin/hook") = true
      ∧ WEXITSTATUS (envExit7.system "/bin/hook") = 7
      ∧ (call_hook envExit7 { path := some "/bin/hook", blocking := true }).ret = some 1792
      ∧ (call_hook envExit7 { path := some "/bin/hook", blocking := true }).ret ≠ some 7 := by
  decide

/-- C2 amended: a blocking hook with a non-empty path makes `call_hook` run
`system` exactly once, on the calling thread, with exactly the configured
path, start no thread, and return exactly the value `system` returned.  That
value is the wait status of the command: when the command exits with code
`code`, the status is `code * 256`, its WEXITSTATUS is `code`, and the value
returned is 0 exactly when `code` is 0. -/
theorem call_hook_blocking_returns_wait_status (env : HookEnv)
    (hook : snd_pcm_shim_hook_t) (path : String)
    (hp : hook.path = some path) (hne : path ≠ "") (hb : hook.blocking = true) :
    (call_hook env hook).calls
        = [.TRACE .call_hook (.running_blocking path), .system path]
      ∧ (call_hook env hook).calls.countP Call.isSystem = 1
      ∧ (call_hook env hook).calls.countP Call.isCreate = 0
      ∧ (call_hook env hook).threads = []
      ∧ (call_hook env hook).ret = some (env.system path)
      ∧ ∀ code : Int, 0 ≤ code → code < 256 → env.system path = code * 256 →
          (call_hook env hook).ret = some (code * 256)
            ∧ WEXITSTATUS (code * 256) = code
            ∧ ((call_hook env hook).ret = some 0 ↔ code = 0) := by
  have hlen : ¬ path.length < 1 := fun h => hne ((length_lt_one_iff path).mp h)
  have hrun : call_hook env hook =
      { ret := some (env.system path),
        calls := [.TRACE .call_hook (.running_blocking path), .system path],
        threads := [] } := by
    simp [call_hook, hp, hb, hlen]
  rw [hrun]
  refine ⟨rfl, ?_, ?_, rfl, rfl, ?_⟩
  · simp [Call.isSystem]
  · simp [Call.isCreate]
  · intro code h0 h1 hs
    simp only [hs, WEXITSTATUS, Option.some.injEq]
    refine ⟨trivial, ?_, ?_⟩
    · rw [Int.mul_ediv_cancel code (by norm_num : (256 : Int) ≠ 0)]
      exact Int.emod_eq_of_lt h0 h1
    · constructor
      · intro h
        omega
      · intro h
        subst h
        rfl

/-- C2 amended, at a blocking hook whose command exits with code 7. -/
theorem call_hook_blocking_returns_wait_status_witness :
    (call_hook envExit7 { path := some "/bin/hook", blocking := true }).calls
        = [.TRACE .call_hook (.running_blocking "/bin/hook"), .system "/bin/hook"]
      ∧ (call_hook envExit7 { path := some "/bin/hook", blocking := true }).ret
          = some (7 * 256)
      ∧ WEXITSTATUS (7 * 256) = 7 := by
  have h := call_hook_blocking_returns_wait_status envExit7
    { path := some "/bin/hook", blocking := true } "/bin/hook" rfl (by decide) rfl
  exact ⟨h.1, (h.2.2.2.2.2 7 (by decide) (by decide) rfl).1,
    (h.2.2.2.2.2 7 (by decide) (by decide) rfl).2.1⟩

/-- C3, the code at the failing input: for a non-blocking hook with path
`/bin/hook`, when `pthread_create` succeeds (returns 0), `call_hook` starts
one thread running `system` on the path and returns 0, and the calls it makes
are the diagnostic line and `pthread_create` only: `pthread_detach` is not
called, because `&&` skips its right operand when the left one is 0. -/
theorem call_hook_created_thread_not_detached :
    call_hook envOk { path := some "/bin/hook", blocking := false }
        = { ret := some 0,
            calls := [.TRACE .call_hook (.running_non_blocking "/bin/hook"),
                      .pthread_create "/bin/hook"],
            threads := [[.system "/bin/hook", .pthread_exit]] }
      ∧ Call.pthread_detach ∉
          (call_hook envOk { path := some "/bin/hook", blocking := false }).calls := by
  decide

/-- C4, the code at the failing input: for a non-blocking hook with path
`/bin/hook`, when `pthread_create` fails with 11 and the `pthread_detach`
that is then evaluated returns 0, `call_hook` starts no thread and returns 0. -/
theorem call_hook_create_failure_returns_zero :
    envCreateFails.pthread_create ≠ 0
      ∧ call_hook envCreateFails { path := some "/bin/hook", blocking := false }
        = { ret := some 0,
            calls := [.TRACE .call_hook (.running_non_blocking "/bin/hook"),
                      .pthread_create "/bin/hook", .pthread_detach],
            threads := [] } := by
  decide

/-! ## Theorems: the transfer path -/

/-- C5 as stated fails for a step other than 16: with 32 bits between frames,
source frames 0 and 1 at bytes 0 and 4, destination frames 0 and 1 at bytes
100 and 104 (disjoint regions), and 2 frames to transfer, the sample of
destination frame 1 after the call is not the sample source frame 1 held. -/
theorem transfer_callback_stride32_counterexample :
    area_addr srcStride32 0 = 0 ∧ area_addr srcStride32 (0 + 1) = 4
      ∧ area_addr dstStride32 0 = 100 ∧ area_addr dstStride32 (0 + 1) = 104
      ∧ area_addr srcStride32 (0 + 1) + 2 ≤ area_addr dstStride32 0
      ∧ sample16 (transfer_callback memIota dstStride32 0 srcStride32 0 2).mem
            (area_addr dstStride32 (0 + 1))
          ≠ sample16 memIota (area_addr srcStride32 (0 + 1)) := by
  decide

/-- C5 amended: when both regions have step 16 (one 2-byte sample per frame),
the bit offset of every addressed frame is below 2^32, and the two byte
ranges of `2 * size` bytes lie below 2^64 and do not overlap, then after
`transfer_callback` the 2-byte sample of destination frame `dst_offset + i`
is the sample source frame `src_offset + i` held before, for every
`i < size`; every byte of the source range is unchanged; and the call
returns `size`. -/
theorem transfer_callback_copies_frames (m : Mem)
    (dst src : snd_pcm_channel_area_t) (dst_offset src_offset size : Nat)
    (hs : src.step = 16) (hd : dst.step = 16)
    (hsw : ∀ i, i < size → src.first + src.step * (src_offset + i) < 2 ^ 32)
    (hdw : ∀ i, i < size → dst.first + dst.step * (dst_offset + i) < 2 ^ 32)
    (hsb : area_addr src src_offset + 2 * size < 2 ^ 64)
    (hdb : area_addr dst dst_offset + 2 * size < 2 ^ 64)
    (hdis : area_addr src src_offset + 2 * size ≤ area_addr dst dst_offset
      ∨ area_addr dst dst_offset + 2 * size ≤ area_addr src src_offset) :
    (∀ i, i < size →
        sample16 (transfer_callback m dst dst_offset src src_offset size).mem
            (area_addr dst (dst_offset + i))
          = sample16 m (area_addr src (src_offset + i)))
      ∧ (∀ a, area_addr src src_offset ≤ a → a < area_addr src src_offset + 2 * size →
          (transfer_callback m dst dst_offset src src_offset size).mem a = m a)
      ∧ (transfer_callback m dst dst_offset src src_offset size).ret = (size : Int) := by
  have hsz : 2 * size < 2 ^ 64 := by omega
  refine ⟨?_, ?_, ?_⟩
  · intro i hi
    have hpos : 0 < size := by omega
    have hfs : area_addr src (src_offset + i) = area_addr src src_offset + 2 * i :=
      area_addr_frame src src_offset i hs (hsw 0 hpos) (hsw i hi)
    have hfd : area_addr dst (dst_offset + i) = area_addr dst dst_offset + 2 * i :=
      area_addr_frame dst dst_offset i hd (hdw 0 hpos) (hdw i hi)
    rw [hfs, hfd]
    simp only [sample16]
    rw [transfer_mem_eq m dst src dst_offset src_offset size hsz,
      transfer_mem_eq m dst src dst_offset src_offset size hsz]
    rw [if_pos (by omega), if_pos (by omega)]
    have e1 : area_addr src src_offset
        + (area_addr dst dst_offset + 2 * i - area_addr dst dst_offset)
        = area_addr src src_offset + 2 * i := by omega
    have e2 : area_addr src src_offset
        + (area_addr dst dst_offset + 2 * i + 1 - area_addr dst dst_offset)
        = area_addr src src_offset + 2 * i + 1 := by omega
    rw [e1, e2]
  · intro a h1 h2
    rw [transfer_mem_eq m dst src dst_offset src_offset size hsz]
    rw [if_neg (by omega)]
  · have hlt : size < 2 ^ (ULONG_WIDTH - 1) := by
      have : (2 : Nat) ^ (ULONG_WIDTH - 1) = 2 ^ 63 := rfl
      omega
    simp only [transfer_callback, if_pos hlt]

/-- C5 amended, at 3 frames copied from a region at byte 1 (address 0, first
bit 8) to a region at byte 100, both with step 16. -/
theorem transfer_callback_copies_frames_witness :
    (∀ i, i < 3 →
        sample16 (transfer_callback memIota dstStride16 0 srcStride16 0 3).mem
            (area_addr dstStride16 (0 + i))
          = sample16 memIota (area_addr srcStride16 (0 + i)))
      ∧ (∀ a, area_addr srcStride16 0 ≤ a → a < area_addr srcStride16 0 + 2 * 3 →
          (transfer_callback memIota dstStride16 0 srcStride16 0 3).mem a = memIota a)
      ∧ (transfer_callback memIota dstStride16 0 srcStride16 0 3).ret = ((3 : Nat) : Int) :=
  transfer_callback_copies_frames memIota dstStride16 srcStride16 0 0 3 rfl rfl
    (by intro i hi; simp only [srcStride16]; omega)
    (by intro i hi; simp only [dstStride16]; omega)
    (by decide) (by decide) (by decide)

/-- C6 as stated fails: for first = 0, step = 16 and offset = 2^28 the exact
bit offset is 2^32, which the 32-bit local `bitofs` holds as 0, so `area_addr`
returns the origin and not the origin plus 2^29. -/
theorem area_addr_wraps_counterexample :
    area_addr { addr := 4096, first := 0, step := 16 } 268435456 = 4096
      ∧ area_addr { addr := 4096, first := 0, step := 16 } 268435456
          ≠ 4096 + (0 + 16 * 268435456) / 8 := by
  decide

/-- C6 amended: `area_addr` returns the origin plus the floor of
`((first + step * offset) mod 2^32) / 8`; this is the origin plus the floor of
`(first + step * offset) / 8` whenever `first + step * offset` is below 2^32;
and first = 8, step = 16, offset = 3 gives the origin plus 7. -/
theorem area_addr_is_origin_plus_bitofs_div_8 (area : snd_pcm_channel_area_t)
    (offset : Nat) :
    area_addr area offset
        = area.addr + ((area.first + area.step * offset) % 2 ^ 32) / 8
      ∧ (area.first + area.step * offset < 2 ^ 32 →
          area_addr area offset = area.addr + (area.first + area.step * offset) / 8)
      ∧ area_addr { addr := area.addr, first := 8, step := 16 } 3 = area.addr + 7 := by
  refine ⟨area_addr_eq_mod area offset, area_addr_of_lt area offset, ?_⟩
  rw [area_addr_eq_mod]
  show area.addr + (8 + 16 * 3) % 2 ^ 32 / 8 = area.addr + 7
  norm_num

/-- C6 amended, at first = 8, step = 16, offset = 3 and origin 4096. -/
theorem area_addr_is_origin_plus_bitofs_div_8_witness :
    area_addr { addr := 4096, first := 8, step := 16 } 3 = 4096 + (8 + 16 * 3) / 8
      ∧ area_addr { addr := 4096, first := 8, step := 16 } 3 = 4096 + 7 :=
  ⟨(area_addr_is_origin_plus_bitofs_div_8 { addr := 4096, first := 8, step := 16 } 3).2.1
      (by decide),
   (area_addr_is_origin_plus_bitofs_div_8 { addr := 4096, first := 8, step := 16 } 3).2.2⟩

/-! ## Theorems: the plugin factory and the lifecycle callbacks -/

/-- C7: for every configuration block with no `slave` entry the factory
returns -EINVAL; the only call it makes is one SNDERR line, so it does not
call `snd_pcm_extplug_create`, does not reach `call_hook`, makes no `system`
and no `pthread_create` call and starts no thread. -/
theorem missing_slave_returns_einval (env : PluginEnv) (conf : List snd_config_t)
    (hno : ∀ n ∈ conf, n.id ≠ some "slave") :
    (snd_pcm_shim_open env conf).ret = some (-EINVAL)
      ∧ (∃ e, (snd_pcm_shim_open env conf).calls = [.SNDERR e])
      ∧ Call.snd_pcm_extplug_create ∉ (snd_pcm_shim_open env conf).calls
      ∧ (snd_pcm_shim_open env conf).calls.countP Call.isHookTrace = 0
      ∧ (snd_pcm_shim_open env conf).calls.countP Call.isSystem = 0
      ∧ (snd_pcm_shim_open env conf).calls.countP Call.isCreate = 0
      ∧ (snd_pcm_shim_open env conf).threads = [] := by
  cases hc : conf_loop conf (init_locals env) with
  | error e =>
    rw [snd_pcm_shim_open_of_error env conf e hc]
    simp [Call.isHookTrace, Call.isSystem, Call.isCreate]
  | ok l =>
    have hs : l.slave = none := conf_loop_slave conf hno _ _ hc
    rw [snd_pcm_shim_open_of_no_slave env conf l hc hs]
    simp [Call.isHookTrace, Call.isSystem, Call.isCreate]

/-- C7 at the configuration `type shim; open_hook.path "/bin/hook"`. -/
theorem missing_slave_returns_einval_witness :
    (snd_pcm_shim_open envPlugin confNoSlave).ret = some (-EINVAL)
      ∧ (snd_pcm_shim_open envPlugin confNoSlave).calls = [.SNDERR .slave_not_defined]
      ∧ (snd_pcm_shim_open envPlugin confNoSlave).calls.countP Call.isHookTrace = 0
      ∧ (snd_pcm_shim_open envPlugin confNoSlave).threads = [] := by
  have h := missing_slave_returns_einval envPlugin confNoSlave (by decide)
  exact ⟨h.1, by decide, h.2.2.2.1, h.2.2.2.2.2.2⟩

/-- C8 as stated fails: the configuration `type shim; slave ...` contains the
top-level key `type`, which is none of `slave`, `open_hook`, `close_hook`, yet
the factory skips it, reaches `call_hook` and returns 0, not -EINVAL. -/
theorem type_key_accepted_counterexample :
    (∃ n ∈ confTypeSlave, n.id = some "type")
      ∧ (snd_pcm_shim_open envPlugin confTypeSlave).ret = some 0
      ∧ (snd_pcm_shim_open envPlugin confTypeSlave).ret ≠ some (-EINVAL)
      ∧ (snd_pcm_shim_open envPlugin confTypeSlave).calls.countP Call.isHookTrace = 1 := by
  decide

/-- C8 amended: for every configuration block that contains a top-level key
other than `slave`, `open_hook`, `close_hook`, `comment`, `type` and `hint`,
or a key other than `path` and `blocking` inside an `open_hook` or
`close_hook` block, the factory returns -EINVAL and the only call it makes is
one SNDERR line: `call_hook` is not reached, no `system` and no
`pthread_create` call is made and no thread is started. -/
theorem unknown_key_returns_einval (env : PluginEnv) (conf : List snd_config_t)
    (hbad : ∃ n ∈ conf, rejected_node n) :
    (snd_pcm_shim_open env conf).ret = some (-EINVAL)
      ∧ (∃ e, (snd_pcm_shim_open env conf).calls = [.SNDERR e])
      ∧ (snd_pcm_shim_open env conf).calls.countP Call.isHookTrace = 0
      ∧ (snd_pcm_shim_open env conf).calls.countP Call.isSystem = 0
      ∧ (snd_pcm_shim_open env conf).calls.countP Call.isCreate = 0
      ∧ (snd_pcm_shim_open env conf).threads = [] := by
  obtain ⟨e, he⟩ := conf_loop_unknown conf hbad (init_locals env)
  rw [snd_pcm_shim_open_of_error env conf e he]
  simp [Call.isHookTrace, Call.isSystem, Call.isCreate]

/-- C8 amended, at the configuration `slave ...; open_hook.foo 1`. -/
theorem unknown_key_returns_einval_witness :
    (snd_pcm_shim_open envPlugin confOpenHookFoo).ret = some (-EINVAL)
      ∧ (snd_pcm_shim_open envPlugin confOpenHookFoo).calls
          = [.SNDERR (.unknown_field_open_hook "foo")]
      ∧ (snd_pcm_shim_open envPlugin confOpenHookFoo).calls.countP Call.isHookTrace = 0 := by
  have h := unknown_key_returns_einval envPlugin confOpenHookFoo
    ⟨{ id := some "open_hook",
       children := [{ id := some "foo", get_bool := 1, get_string := none }] },
     by decide, "open_hook", rfl,
     Or.inr ⟨Or.inl rfl, { id := some "foo", get_bool := 1, get_string := none },
       by decide, "foo", rfl, by decide, by decide⟩⟩
  exact ⟨h.1, by decide, h.2.2.1⟩

/-- C9, the code at the failing input: for the configuration
`slave ...; open_hook.path "/bin/hook"` (no `blocking` entry, no close hook
block), when the uninitialised locals `open_hook_blocking` and
`close_hook_blocking` hold a nonzero byte, the factory builds both hooks with
blocking = true and runs the open hook in blocking mode (`system` on the
calling thread, no thread).  The close hook, which has no `path` entry, gets
the empty path and creation succeeds. -/
theorem absent_blocking_is_indeterminate :
    (snd_pcm_shim_open envPlugin confNoBlocking).shim
        = some { open_hook := { path := some "/bin/hook", blocking := true },
                 close_hook := { path := some "", blocking := true } }
      ∧ Call.system "/bin/hook" ∈ (snd_pcm_shim_open envPlugin confNoBlocking).calls
      ∧ (snd_pcm_shim_open envPlugin confNoBlocking).threads = []
      ∧ (snd_pcm_shim_open envPlugin confNoBlocking).ret = some 0 := by
  decide

/-- C10, the code at the failing input: for a shim whose hooks are the
non-blocking hook `/bin/hook`, when `pthread_create` fails with 11 the `&&`
evaluates `pthread_detach` on the unwritten local `thread`; when that call
faults, `init_callback` and `close_callback` do not return (they do not
return 0), and the factory run with the same open hook does not return either,
while with a successful `pthread_create` and everything else unchanged it
returns 0. -/
theorem thread_creation_failure_breaks_lifecycle :
    init_callback envDetachFaults shimNonBlocking
        = { ret := none,
            calls := [.TRACE .init_callback .init_called,
                      .TRACE .call_hook (.running_non_blocking "/bin/hook"),
                      .pthread_create "/bin/hook", .pthread_detach],
            threads := [] }
      ∧ close_callback envDetachFaults shimNonBlocking
        = { ret := none,
            calls := [.TRACE .close_callback .close_called,
                      .TRACE .call_hook (.running_non_blocking "/bin/hook"),
                      .pthread_create "/bin/hook", .pthread_detach],
            threads := [] }
      ∧ (snd_pcm_shim_open { envPlugin with hook := envDetachFaults } confNonBlocking).ret
          = none
      ∧ (snd_pcm_shim_open { envPlugin with hook := envOk } confNonBlocking).ret = some 0 := by
  decide

end AlsaShim
